import Mathlib

/-!
Shallow embedding of `src/flow/cpp/magical_flow/src/db/CktGraph.h` (class
`FloorplanData` and class `CktGraph`) and the parts of its collaborators the
claims need.  C++ `std::vector` is modelled as `List`, `std::map` as an
association list, bounds-checked `at()` access as `Option`, and the fatal
`Assert`/`AssertMsg` checks as `Option`-valued operations that return `none`
when the asserted condition is false.
-/

/-- Location coordinate type `LocType` (a 32-bit signed integer), modelled as
unbounded `Int`; no arithmetic in the embedded operations can overflow on the
inputs used here. -/
abbrev LocType := Int

/-- Index type `IndexType` (a 32-bit unsigned integer) together with container
sizes, modelled as `Nat`. -/
abbrev IndexType := Nat

/-- Integer type `IntType`. -/
abbrev IntType := Int

/-- Largest value of `LocType`, i.e. the largest 32-bit signed integer. -/
def LOC_TYPE_MAX : LocType := 2147483647

/-- Smallest value of `LocType`. -/
def LOC_TYPE_MIN : LocType := -2147483648

/-- Largest value of `IndexType`, i.e. the largest 32-bit unsigned integer. -/
def INDEX_TYPE_MAX : IndexType := 4294967295

/-- Modelled from the spec: the axis-aligned box `Box<LocType>` (its header is
not under `src/`).  A default-constructed box is the empty sentinel box whose
`xLo` is `LOC_TYPE_MAX`; the `restore` assertion in `CktGraph.h` compares
against exactly this default `xLo` value. -/
structure Box where
  xLo : LocType := LOC_TYPE_MAX
  yLo : LocType := LOC_TYPE_MAX
  xHi : LocType := LOC_TYPE_MIN
  yHi : LocType := LOC_TYPE_MIN
  deriving DecidableEq

/-- Modelled from the spec: the physical layout object `Layout` (`Layout.h` is
not under `src/`).  The spec treats it as opaque geometry owned by the graph;
the only part `CktGraph.h` itself reads is its `boundary()` box, so the model
keeps the boundary and abstracts the remaining geometry as a payload. -/
structure Layout where
  boundary : Box := {}
  payload : Nat := 0
  deriving DecidableEq

/-- Modelled from the spec: the GDSII geometry data `GdsData` (its header is
not under `src/`); opaque geometry data, abstracted as a payload. -/
structure GdsData where
  payload : Nat := 0
  deriving DecidableEq

/-- Modelled from the spec: the technology database handle `TechDB`
(`TechDB.h` is not under `src/`); an opaque binding, abstracted as a
payload. -/
structure TechDB where
  payload : Nat := 0
  deriving DecidableEq

/-- Modelled from the spec: a circuit node `CktNode` (`GraphComponents.h` is
not under `src/`); a sub-circuit instance whose internal fields are irrelevant
to the claims, abstracted as a payload. -/
structure CktNode where
  payload : Nat := 0
  deriving DecidableEq

/-- Modelled from the spec: a pin `Pin` (`GraphComponents.h` is not under
`src/`); a connection point whose internal fields are irrelevant to the
claims, abstracted as a payload. -/
structure Pin where
  payload : Nat := 0
  deriving DecidableEq

/-- Modelled from the spec: a net `Net` (`GraphComponents.h` is not under
`src/`).  The spec describes net-held IO shapes that `Net::flipVert` reflects
about a vertical axis; the model keeps the shapes as integer points. -/
structure Net where
  ioShapes : List (LocType × LocType) := []
  deriving DecidableEq

/-- Modelled from the spec: `Net::flipVert(axis)` reflects every IO shape
point of the net about the vertical line `x = axis`. -/
def Net.flipVert (n : Net) (axis : LocType) : Net :=
  { n with ioShapes := n.ioShapes.map (fun p => (2 * axis - p.1, p.2)) }

/-- Enumerated implementation strategy `ImplType`.  Only `UNSET` appears in
`CktGraph.h`; the other strategies are abstracted by an index. -/
inductive ImplType where
  | UNSET : ImplType
  | IMPL : Nat → ImplType
  deriving DecidableEq

/-- Association-list upsert modelling `std::map::operator[]` followed by
assignment: replace the value at the key when present, otherwise insert the
key.  The ordering of a `std::map` is immaterial to the claims. -/
def mapAssign : List (String × IntType) → String → IntType → List (String × IntType)
  | [], k, v => [(k, v)]
  | (k', v') :: rest, k, v =>
      if k' = k then (k, v) :: rest else (k', v') :: mapAssign rest k v

/-- Floorplan-related data structure, from class `FloorplanData` in
`CktGraph.h`. -/
structure FloorplanData where
  boundary : Box := {}
  isBoundarySet : Bool := false
  netNameToAssignMap : List (String × IntType) := []
  isNetAssignmentSet : Bool := false
  deriving DecidableEq

/-- Method `FloorplanData::setBoundary`: mark the boundary set and store the
box. -/
def FloorplanData.setBoundary (fp : FloorplanData)
    (xLo yLo xHi yHi : LocType) : FloorplanData :=
  { fp with isBoundarySet := true
            boundary := { xLo := xLo, yLo := yLo, xHi := xHi, yHi := yHi } }

/-- Method `FloorplanData::clearBoundary`: only unset the flag. -/
def FloorplanData.clearBoundary (fp : FloorplanData) : FloorplanData :=
  { fp with isBoundarySet := false }

/-- Method `FloorplanData::setNetAssignment`: mark the assignment set and
upsert the side for the net name. -/
def FloorplanData.setNetAssignment (fp : FloorplanData)
    (netName : String) (assignStatus : IntType) : FloorplanData :=
  { fp with isNetAssignmentSet := true
            netNameToAssignMap := mapAssign fp.netNameToAssignMap netName assignStatus }

/-- Method `FloorplanData::clearNetAssignment`: only unset the flag. -/
def FloorplanData.clearNetAssignment (fp : FloorplanData) : FloorplanData :=
  { fp with isNetAssignmentSet := false }

/-- Method `FloorplanData::netAssignment`: the stored side for the name, or
`-1` when the name is absent. -/
def FloorplanData.netAssignment (fp : FloorplanData) (name : String) : IntType :=
  match fp.netNameToAssignMap.lookup name with
  | none => -1
  | some v => v

/-- Backup slot `CktGraph::CktGraphBackup`.  In the C++ source the two `Bool`
members carry no initializer and the defaulted `CktGraph` constructor
default-initializes them, so a default-initialized graph holds indeterminate
values there; the model threads them as explicit parameters of the initial
state. -/
structure CktGraphBackup where
  nodeArray : List CktNode
  pinArray : List Pin
  netArray : List Net
  psubIdxArray : List IndexType
  nwellIdxArray : List IndexType
  layout : Layout
  isImplemented : Bool
  flipVertFlag : Bool
  gdsData : GdsData
  deriving DecidableEq

/-- Circuit graph, from class `CktGraph` in `CktGraph.h`.  The field
`backupSlot` embeds the member `_backup`; the other fields carry the same
names as the C++ members without the leading underscore, with the C++ member
initializers as default field values. -/
structure CktGraph where
  backupSlot : CktGraphBackup
  techDB : TechDB := {}
  nodeArray : List CktNode := []
  pinArray : List Pin := []
  netArray : List Net := []
  psubIdxArray : List IndexType := []
  nwellIdxArray : List IndexType := []
  name : String := ""
  refName : String := ""
  layout : Layout := {}
  implType : ImplType := ImplType.UNSET
  implIdx : IndexType := INDEX_TYPE_MAX
  isImplemented : Bool := false
  flipVertFlag : Bool := false
  fpData : FloorplanData := {}
  gdsData : GdsData := {}
  deriving DecidableEq

/-- A freshly constructed `CktGraph` (the defaulted constructor).  The
vectors, layout and geometry members of the backup slot are properly
default-constructed, while its two uninitialized `Bool` members receive the
indeterminate values `b1` and `b2`; zero-initialization corresponds to
`initCktGraph false false`. -/
def initCktGraph (b1 b2 : Bool) : CktGraph :=
  { backupSlot :=
      { nodeArray := []
        pinArray := []
        netArray := []
        psubIdxArray := []
        nwellIdxArray := []
        layout := {}
        isImplemented := b1
        flipVertFlag := b2
        gdsData := {} } }

/-- Method `CktGraph::setTechDB`. -/
def CktGraph.setTechDB (g : CktGraph) (techDB : TechDB) : CktGraph :=
  { g with techDB := techDB }

/-- The result of `std::vector::resize(n)`: truncate to the first `n`
elements, or pad with default-constructed elements up to length `n`. -/
def listResize (l : List α) (n : Nat) (d : α) : List α :=
  l.take n ++ List.replicate (n - l.length) d

/-- Method `CktGraph::resizeNodeArray`, whose `AssertMsg` requires
`numNodes <= _nodeArray.size()`; the assertion failure is modelled as
`none`. -/
def CktGraph.resizeNodeArray (g : CktGraph) (numNodes : IndexType) : Option CktGraph :=
  if numNodes ≤ g.nodeArray.length then
    some { g with nodeArray := listResize g.nodeArray numNodes {} }
  else none

/-- Method `CktGraph::resizePinArray`, with the analogous `AssertMsg`. -/
def CktGraph.resizePinArray (g : CktGraph) (numPins : IndexType) : Option CktGraph :=
  if numPins ≤ g.pinArray.length then
    some { g with pinArray := listResize g.pinArray numPins {} }
  else none

/-- Method `CktGraph::resizeNetArray`, with the analogous `AssertMsg`. -/
def CktGraph.resizeNetArray (g : CktGraph) (numNets : IndexType) : Option CktGraph :=
  if numNets ≤ g.netArray.length then
    some { g with netArray := listResize g.netArray numNets {} }
  else none

/-- Method `CktGraph::numNodes`. -/
def CktGraph.numNodes (g : CktGraph) : IndexType := g.nodeArray.length

/-- Method `CktGraph::numPins`. -/
def CktGraph.numPins (g : CktGraph) : IndexType := g.pinArray.length

/-- Method `CktGraph::numNets`. -/
def CktGraph.numNets (g : CktGraph) : IndexType := g.netArray.length

/-- Method `CktGraph::numPsubs`. -/
def CktGraph.numPsubs (g : CktGraph) : IndexType := g.psubIdxArray.length

/-- Method `CktGraph::numNwells`. -/
def CktGraph.numNwells (g : CktGraph) : IndexType := g.nwellIdxArray.length

/-- Method `CktGraph::node`, a bounds-checked `at()` access modelled as
`Option`. -/
def CktGraph.node (g : CktGraph) (nodeIdx : IndexType) : Option CktNode :=
  g.nodeArray[nodeIdx]?

/-- Method `CktGraph::pin`, a bounds-checked `at()` access. -/
def CktGraph.pin (g : CktGraph) (pinIdx : IndexType) : Option Pin :=
  g.pinArray[pinIdx]?

/-- Method `CktGraph::net`, a bounds-checked `at()` access. -/
def CktGraph.net (g : CktGraph) (netIdx : IndexType) : Option Net :=
  g.netArray[netIdx]?

/-- Method `CktGraph::psub`: `_netArray.at(_psubIdxArray.at(psubIdx))`. -/
def CktGraph.psub (g : CktGraph) (psubIdx : IndexType) : Option Net :=
  g.psubIdxArray[psubIdx]?.bind (fun i => g.netArray[i]?)

/-- Method `CktGraph::nwell`: `_netArray.at(_nwellIdxArray.at(nwellIdx))`. -/
def CktGraph.nwell (g : CktGraph) (nwellIdx : IndexType) : Option Net :=
  g.nwellIdxArray[nwellIdx]?.bind (fun i => g.netArray[i]?)

/-- Method `CktGraph::setName`: sets both `_name` and `_refName`. -/
def CktGraph.setName (g : CktGraph) (name : String) : CktGraph :=
  { g with name := name, refName := name }

/-- Method `CktGraph::setRefName`. -/
def CktGraph.setRefName (g : CktGraph) (refName : String) : CktGraph :=
  { g with refName := refName }

/-- Method `CktGraph::setImplType`. -/
def CktGraph.setImplType (g : CktGraph) (implType : ImplType) : CktGraph :=
  { g with implType := implType }

/-- Method `CktGraph::setImplIdx`. -/
def CktGraph.setImplIdx (g : CktGraph) (implIdx : IndexType) : CktGraph :=
  { g with implIdx := implIdx }

/-- Method `CktGraph::setIsImpl`. -/
def CktGraph.setIsImpl (g : CktGraph) (impl : Bool) : CktGraph :=
  { g with isImplemented := impl }

/-- Method `CktGraph::allocateNode`: `emplace_back` a default-constructed
node, then return `size() - 1`. -/
def CktGraph.allocateNode (g : CktGraph) : IndexType × CktGraph :=
  let arr := g.nodeArray ++ [({} : CktNode)]
  (arr.length - 1, { g with nodeArray := arr })

/-- Method `CktGraph::allocatePin`. -/
def CktGraph.allocatePin (g : CktGraph) : IndexType × CktGraph :=
  let arr := g.pinArray ++ [({} : Pin)]
  (arr.length - 1, { g with pinArray := arr })

/-- Method `CktGraph::allocateNet`. -/
def CktGraph.allocateNet (g : CktGraph) : IndexType × CktGraph :=
  let arr := g.netArray ++ [({} : Net)]
  (arr.length - 1, { g with netArray := arr })

/-- Method `CktGraph::allocatePsub`: `allocateNet()` followed by pushing the
new index onto `_psubIdxArray`. -/
def CktGraph.allocatePsub (g : CktGraph) : IndexType × CktGraph :=
  let r := g.allocateNet
  (r.1, { r.2 with psubIdxArray := r.2.psubIdxArray ++ [r.1] })

/-- Method `CktGraph::addPsubIdx`. -/
def CktGraph.addPsubIdx (g : CktGraph) (netIdx : IndexType) : CktGraph :=
  { g with psubIdxArray := g.psubIdxArray ++ [netIdx] }

/-- Method `CktGraph::allocateNwell`. -/
def CktGraph.allocateNwell (g : CktGraph) : IndexType × CktGraph :=
  let r := g.allocateNet
  (r.1, { r.2 with nwellIdxArray := r.2.nwellIdxArray ++ [r.1] })

/-- Method `CktGraph::addNwellIdx`. -/
def CktGraph.addNwellIdx (g : CktGraph) (netIdx : IndexType) : CktGraph :=
  { g with nwellIdxArray := g.nwellIdxArray ++ [netIdx] }

/-- Method `CktGraph::flipVert`: toggle `_flipVertFlag` and apply
`Net::flipVert(axis)` to every net of `_netArray`. -/
def CktGraph.flipVert (g : CktGraph) (axis : LocType) : CktGraph :=
  { g with flipVertFlag := !g.flipVertFlag
           netArray := g.netArray.map (fun n => n.flipVert axis) }

/-- Method `CktGraph::backup`: copy the nine snapshotted members into
`_backup`.  Note that `_name`, `_refName`, `_implType`, `_implIdx`,
`_fpData` and `_techDB` are not copied. -/
def CktGraph.backup (g : CktGraph) : CktGraph :=
  { g with backupSlot :=
      { nodeArray := g.nodeArray
        pinArray := g.pinArray
        netArray := g.netArray
        psubIdxArray := g.psubIdxArray
        nwellIdxArray := g.nwellIdxArray
        layout := g.layout
        isImplemented := g.isImplemented
        flipVertFlag := g.flipVertFlag
        gdsData := g.gdsData } }

/-- Method `CktGraph::restore`: `std::swap` each of the nine snapshotted
members with the backup slot, then `Assert` that the swapped-in layout has
the default boundary `xLo`; the assertion failure is modelled as `none`. -/
def CktGraph.restore (g : CktGraph) : Option CktGraph :=
  let g' : CktGraph :=
    { g with
        nodeArray := g.backupSlot.nodeArray
        pinArray := g.backupSlot.pinArray
        netArray := g.backupSlot.netArray
        psubIdxArray := g.backupSlot.psubIdxArray
        nwellIdxArray := g.backupSlot.nwellIdxArray
        layout := g.backupSlot.layout
        isImplemented := g.backupSlot.isImplemented
        flipVertFlag := g.backupSlot.flipVertFlag
        gdsData := g.backupSlot.gdsData
        backupSlot :=
          { nodeArray := g.nodeArray
            pinArray := g.pinArray
            netArray := g.netArray
            psubIdxArray := g.psubIdxArray
            nwellIdxArray := g.nwellIdxArray
            layout := g.layout
            isImplemented := g.isImplemented
            flipVertFlag := g.flipVertFlag
            gdsData := g.gdsData } }
  if g'.layout.boundary.xLo = LOC_TYPE_MAX then some g' else none

/-! Helper lemmas shared by several claim theorems. -/

/-- Applying the net-level vertical flip twice about the same axis is the
identity on a net. -/
theorem Net.flipVert_flipVert (n : Net) (a : LocType) :
    (n.flipVert a).flipVert a = n := by
  cases n with
  | mk shapes =>
    simp only [Net.flipVert, List.map_map, Net.mk.injEq]
    induction shapes with
    | nil => rfl
    | cons p t ih =>
      cases p with
      | mk x y =>
        simp only [List.map_cons, Function.comp_apply, List.cons.injEq]
        refine ⟨?_, ih⟩
        have hx : 2 * a - (2 * a - x) = x := by ring
        rw [hx]

/-- C7: for every axis value, applying `flipVert` twice restores every net of
the graph to its pre-flip geometry and returns the flip-vertical flag to its
original value, because `flipVert` toggles the flag and maps the net-level
vertical-flip transform over the net array. -/
theorem c7_flipVert_parity (g : CktGraph) (a : LocType) :
    (g.flipVert a).flipVertFlag = !g.flipVertFlag ∧
    (g.flipVert a).netArray = g.netArray.map (fun n => n.flipVert a) ∧
    ((g.flipVert a).flipVert a).netArray = g.netArray ∧
    ((g.flipVert a).flipVert a).flipVertFlag = g.flipVertFlag := by
  refine ⟨rfl, rfl, ?_, Bool.not_not g.flipVertFlag⟩
  show (g.netArray.map (fun n => n.flipVert a)).map (fun n => n.flipVert a) = g.netArray
  rw [List.map_map]
  have h : ((fun n : Net => n.flipVert a) ∘ (fun n : Net => n.flipVert a)) = id := by
    funext n
    exact Net.flipVert_flipVert n a
  rw [h, List.map_id]

/-- C8: `clearBoundary` and `clearNetAssignment` each set only their own
is-set flag to `false`, leaving the stored boundary box and the
net-name-to-side mapping (and the other flag) unchanged; after
`clearBoundary`, the boundary data is still the last value stored by
`setBoundary`. -/
theorem c8_clear_is_lazy (fp : FloorplanData) (xLo yLo xHi yHi : LocType) :
    fp.clearBoundary.boundary = fp.boundary ∧
    fp.clearBoundary.netNameToAssignMap = fp.netNameToAssignMap ∧
    fp.clearBoundary.isBoundarySet = false ∧
    fp.clearBoundary.isNetAssignmentSet = fp.isNetAssignmentSet ∧
    fp.clearNetAssignment.netNameToAssignMap = fp.netNameToAssignMap ∧
    fp.clearNetAssignment.boundary = fp.boundary ∧
    fp.clearNetAssignment.isNetAssignmentSet = false ∧
    fp.clearNetAssignment.isBoundarySet = fp.isBoundarySet ∧
    ((fp.setBoundary xLo yLo xHi yHi).clearBoundary).boundary
      = { xLo := xLo, yLo := yLo, xHi := xHi, yHi := yHi } ∧
    ((fp.setBoundary xLo yLo xHi yHi).clearBoundary).isBoundarySet = false :=
  ⟨rfl, rfl, rfl, rfl, rfl, rfl, rfl, rfl, rfl, rfl⟩

/-- C10: `restore()` aborts on its assertion exactly when the checkpointed
layout being swapped in has a boundary whose `xLo` differs from the
default-initialized value `LOC_TYPE_MAX`; otherwise it completes. -/
theorem c10_restore_assertion (g : CktGraph) :
    g.restore = none ↔ g.backupSlot.layout.boundary.xLo ≠ LOC_TYPE_MAX := by
  by_cases h : g.backupSlot.layout.boundary.xLo = LOC_TYPE_MAX
  · simp [CktGraph.restore, h]
  · simp [CktGraph.restore, h]

/-- C6 (amended): `restore()` on a freshly constructed graph with no prior
`backup()` completes without error and installs the default-constructed
checkpoint slot: empty collections, default layout and geometry, and — for
the two uninitialized flag members — whatever indeterminate values the slot
held, which are `false` only under zero-initialization. -/
theorem c6_restore_without_backup (b1 b2 : Bool) :
    ∃ g', (initCktGraph b1 b2).restore = some g' ∧
      g'.nodeArray = [] ∧ g'.pinArray = [] ∧ g'.netArray = [] ∧
      g'.psubIdxArray = [] ∧ g'.nwellIdxArray = [] ∧
      g'.layout = {} ∧ g'.gdsData = {} ∧
      g'.isImplemented = b1 ∧ g'.flipVertFlag = b2 :=
  ⟨_, rfl, rfl, rfl, rfl, rfl, rfl, rfl, rfl, rfl, rfl⟩

/-- C6 counterexample: a default-initialized graph whose uninitialized backup
slot flags happen to hold `true` restores to a state whose implemented and
flip flags are `true`, not the zero-valued `false` the claim asserts. -/
theorem c6_counterexample :
    Option.map CktGraph.isImplemented (initCktGraph true true).restore = some true ∧
    Option.map CktGraph.flipVertFlag (initCktGraph true true).restore = some true :=
  ⟨rfl, rfl⟩

/-- Resizing a list to at most its length truncates it to its first `n`
elements, preserving length `n` and every element below `n`. -/
theorem listResize_of_le {α : Type} (l : List α) (n : Nat) (d : α) (h : n ≤ l.length) :
    (listResize l n d).length = n ∧ ∀ i, i < n → (listResize l n d)[i]? = l[i]? := by
  unfold listResize
  rw [Nat.sub_eq_zero_of_le h]
  simp only [List.replicate, List.append_nil]
  refine ⟨by simp [List.length_take, Nat.min_eq_left h], ?_⟩
  intro i hi
  rw [List.getElem?_take]
  rw [if_pos hi]

/-- C1 (amended): for each of the three entity collections, `resize` with a
target strictly greater than the current size fails the fatal assertion,
while a target less than or equal to the current size succeeds, truncates the
collection to its first `n` entities, and leaves every entity below `n`
unchanged at its original index. -/
theorem c1_resize_contract (g : CktGraph) (n : IndexType) :
    (g.nodeArray.length < n → g.resizeNodeArray n = none) ∧
    (n ≤ g.nodeArray.length →
      ∃ g', g.resizeNodeArray n = some g' ∧ g'.nodeArray.length = n ∧
        ∀ i, i < n → g'.nodeArray[i]? = g.nodeArray[i]?) ∧
    (g.pinArray.length < n → g.resizePinArray n = none) ∧
    (n ≤ g.pinArray.length →
      ∃ g', g.resizePinArray n = some g' ∧ g'.pinArray.length = n ∧
        ∀ i, i < n → g'.pinArray[i]? = g.pinArray[i]?) ∧
    (g.netArray.length < n → g.resizeNetArray n = none) ∧
    (n ≤ g.netArray.length →
      ∃ g', g.resizeNetArray n = some g' ∧ g'.netArray.length = n ∧
        ∀ i, i < n → g'.netArray[i]? = g.netArray[i]?) := by
  refine ⟨?_, ?_, ?_, ?_, ?_, ?_⟩ <;> intro h
  · have h' : ¬ (n ≤ g.nodeArray.length) := Nat.not_le.mpr h
    unfold CktGraph.resizeNodeArray
    rw [if_neg h']
  · exact ⟨{ g with nodeArray := listResize g.nodeArray n {} },
      by unfold CktGraph.resizeNodeArray; rw [if_pos h],
      (listResize_of_le g.nodeArray n {} h).1,
      fun i hi => (listResize_of_le g.nodeArray n {} h).2 i hi⟩
  · have h' : ¬ (n ≤ g.pinArray.length) := Nat.not_le.mpr h
    unfold CktGraph.resizePinArray
    rw [if_neg h']
  · exact ⟨{ g with pinArray := listResize g.pinArray n {} },
      by unfold CktGraph.resizePinArray; rw [if_pos h],
      (listResize_of_le g.pinArray n {} h).1,
      fun i hi => (listResize_of_le g.pinArray n {} h).2 i hi⟩
  · have h' : ¬ (n ≤ g.netArray.length) := Nat.not_le.mpr h
    unfold CktGraph.resizeNetArray
    rw [if_neg h']
  · exact ⟨{ g with netArray := listResize g.netArray n {} },
      by unfold CktGraph.resizeNetArray; rw [if_pos h],
      (listResize_of_le g.netArray n {} h).1,
      fun i hi => (listResize_of_le g.netArray n {} h).2 i hi⟩

/-- A graph holding exactly one node, used to exercise the resize contract. -/
def c1oneNode : CktGraph := ((initCktGraph false false).allocateNode).2

/-- C1 counterexample: on a graph with one node, `resizeNodeArray 0` (a
target strictly below the current size) succeeds, and `resizeNodeArray 2` (a
target above the current size) fails the assertion — the opposite of the
claimed contract in both directions. -/
theorem c1_counterexample :
    (c1oneNode.resizeNodeArray 0).isSome = true ∧
    c1oneNode.resizeNodeArray 2 = none :=
  ⟨rfl, rfl⟩

/-- A graph holding two nodes, used as the witness input for C1. -/
def c1twoNodes : CktGraph := (c1oneNode.allocateNode).2

/-- C1 witness: the amended contract evaluated on a two-node graph, growing
to three nodes (fails) and shrinking to one node (succeeds, keeping the
entity at index zero). -/
theorem c1_resize_contract_witness :
    c1twoNodes.resizeNodeArray 3 = none ∧
    (∃ g', c1twoNodes.resizeNodeArray 1 = some g' ∧ g'.nodeArray.length = 1 ∧
      ∀ i, i < 1 → g'.nodeArray[i]? = c1twoNodes.nodeArray[i]?) :=
  ⟨(c1_resize_contract c1twoNodes 3).1 (by decide),
   (c1_resize_contract c1twoNodes 1).2.1 (by decide)⟩

/-- C3 (amended): on every graph state whose layout boundary still has the
default `xLo` value `LOC_TYPE_MAX`, `backup()` followed by `restore()` with
no intervening mutation completes and leaves every observable snapshotted
field — node, pin and net collections, both classification index lists,
layout, implemented flag, flip flag and geometry data — equal to its
pre-backup value; on other states the restore assertion aborts the round
trip. -/
theorem c3_backup_restore_roundtrip (g : CktGraph)
    (h : g.layout.boundary.xLo = LOC_TYPE_MAX) :
    ∃ g', g.backup.restore = some g' ∧
      g'.nodeArray = g.nodeArray ∧
      g'.pinArray = g.pinArray ∧
      g'.netArray = g.netArray ∧
      g'.psubIdxArray = g.psubIdxArray ∧
      g'.nwellIdxArray = g.nwellIdxArray ∧
      g'.layout = g.layout ∧
      g'.isImplemented = g.isImplemented ∧
      g'.flipVertFlag = g.flipVertFlag ∧
      g'.gdsData = g.gdsData := by
  refine ⟨g.backup, ?_, rfl, rfl, rfl, rfl, rfl, rfl, rfl, rfl, rfl⟩
  unfold CktGraph.restore
  rw [if_pos]
  · rfl
  · exact h

/-- A graph whose layout boundary has a non-default `xLo`, on which the
restore assertion fires. -/
def c3badBoundary : CktGraph :=
  { initCktGraph false false with
      layout := { boundary := { xLo := 0, yLo := 0, xHi := 10, yHi := 10 } } }

/-- C3 counterexample: on a graph whose layout boundary `xLo` is `0` rather
than the default, `backup()` followed immediately by `restore()` aborts on
the restore assertion instead of completing with the fields intact. -/
theorem c3_counterexample : c3badBoundary.backup.restore = none := rfl

/-- A concrete graph with one node and one net on which the round trip
completes. -/
def c3goodGraph : CktGraph :=
  ((((initCktGraph false false).allocateNode).2).allocateNet).2

/-- C3 witness: the round-trip theorem evaluated on a concrete graph with the
default layout boundary. -/
theorem c3_backup_restore_roundtrip_witness :
    c3goodGraph.layout.boundary.xLo = LOC_TYPE_MAX ∧
    (∃ g', c3goodGraph.backup.restore = some g' ∧
      g'.nodeArray = c3goodGraph.nodeArray ∧
      g'.pinArray = c3goodGraph.pinArray ∧
      g'.netArray = c3goodGraph.netArray ∧
      g'.psubIdxArray = c3goodGraph.psubIdxArray ∧
      g'.nwellIdxArray = c3goodGraph.nwellIdxArray ∧
      g'.layout = c3goodGraph.layout ∧
      g'.isImplemented = c3goodGraph.isImplemented ∧
      g'.flipVertFlag = c3goodGraph.flipVertFlag ∧
      g'.gdsData = c3goodGraph.gdsData) :=
  ⟨by decide, c3_backup_restore_roundtrip c3goodGraph (by decide)⟩

/-- First allocation of the C4 scenario: one node on a fresh graph. -/
def c4step1 : IndexType × CktGraph := (initCktGraph false false).allocateNode

/-- Second node allocation of the C4 scenario. -/
def c4step2 : IndexType × CktGraph := c4step1.2.allocateNode

/-- First pin allocation of the C4 scenario. -/
def c4step3 : IndexType × CktGraph := c4step2.2.allocatePin

/-- Second pin allocation of the C4 scenario. -/
def c4step4 : IndexType × CktGraph := c4step3.2.allocatePin

/-- Third pin allocation of the C4 scenario. -/
def c4step5 : IndexType × CktGraph := c4step4.2.allocatePin

/-- First net allocation of the C4 scenario. -/
def c4step6 : IndexType × CktGraph := c4step5.2.allocateNet

/-- The C4 scenario graph right after `backup()`. -/
def c4backed : CktGraph := c4step6.2.backup

/-- The extra net allocation of the C4 scenario, after the backup. -/
def c4step7 : IndexType × CktGraph := c4backed.allocateNet

/-- The C4 scenario result after `restore()`. -/
def c4restored : Option CktGraph := c4step7.2.restore

/-- C4: allocating 2 nodes, 3 pins and 1 net yields indices 0,1 / 0,1,2 / 0;
after `backup()`, allocating one more net yields index 1; after `restore()`
the net collection is back to size 1 and again holds exactly the original
(default-constructed) net. -/
theorem c4_scenario :
    c4step1.1 = 0 ∧ c4step2.1 = 1 ∧
    c4step3.1 = 0 ∧ c4step4.1 = 1 ∧ c4step5.1 = 2 ∧
    c4step6.1 = 0 ∧ c4step7.1 = 1 ∧
    Option.map CktGraph.numNets c4restored = some 1 ∧
    Option.map CktGraph.netArray c4restored = some c4step6.2.netArray ∧
    Option.map CktGraph.netArray c4restored = some [({} : Net)] :=
  ⟨rfl, rfl, rfl, rfl, rfl, rfl, rfl, rfl, rfl, rfl⟩

/-- C2 (amended): `backup()` captures, and `restore()` reinstates, exactly
the nine snapshotted components — the three entity collections, both
classification index lists, the layout, the implemented flag, the flip flag
and the gds data; the floorplan annotation, the implementation selector
state (`implType` and `implIdx`), the names and the technology binding are
not part of the snapshot and keep their live values across `restore()`. -/
theorem c2_snapshot_scope (g g' : CktGraph) (h : g.restore = some g') :
    g'.nodeArray = g.backupSlot.nodeArray ∧
    g'.pinArray = g.backupSlot.pinArray ∧
    g'.netArray = g.backupSlot.netArray ∧
    g'.psubIdxArray = g.backupSlot.psubIdxArray ∧
    g'.nwellIdxArray = g.backupSlot.nwellIdxArray ∧
    g'.layout = g.backupSlot.layout ∧
    g'.isImplemented = g.backupSlot.isImplemented ∧
    g'.flipVertFlag = g.backupSlot.flipVertFlag ∧
    g'.gdsData = g.backupSlot.gdsData ∧
    g'.fpData = g.fpData ∧
    g'.implType = g.implType ∧
    g'.implIdx = g.implIdx ∧
    g'.name = g.name ∧
    g'.refName = g.refName ∧
    g'.techDB = g.techDB ∧
    g.backup.backupSlot.nodeArray = g.nodeArray ∧
    g.backup.backupSlot.pinArray = g.pinArray ∧
    g.backup.backupSlot.netArray = g.netArray ∧
    g.backup.backupSlot.psubIdxArray = g.psubIdxArray ∧
    g.backup.backupSlot.nwellIdxArray = g.nwellIdxArray ∧
    g.backup.backupSlot.layout = g.layout ∧
    g.backup.backupSlot.isImplemented = g.isImplemented ∧
    g.backup.backupSlot.flipVertFlag = g.flipVertFlag ∧
    g.backup.backupSlot.gdsData = g.gdsData ∧
    g.backup.fpData = g.fpData ∧
    g.backup.implType = g.implType ∧
    g.backup.implIdx = g.implIdx := by
  unfold CktGraph.restore at h
  by_cases hc : g.backupSlot.layout.boundary.xLo = LOC_TYPE_MAX
  · rw [if_pos hc] at h
    cases h
    exact ⟨rfl, rfl, rfl, rfl, rfl, rfl, rfl, rfl, rfl, rfl, rfl, rfl, rfl,
           rfl, rfl, rfl, rfl, rfl, rfl, rfl, rfl, rfl, rfl, rfl, rfl, rfl, rfl⟩
  · rw [if_neg hc] at h
    cases h

/-- A concrete graph whose floorplan boundary and implementation index are
changed between `backup()` and `restore()`. -/
def c2mutated : CktGraph :=
  let g0 := ((initCktGraph false false).setImplIdx 5).backup
  let g1 := g0.setImplIdx 7
  { g1 with fpData := g1.fpData.setBoundary 0 0 10 10 }

/-- C2 counterexample: after `backup()` with `implIdx = 5`, setting
`implIdx = 7` and a floorplan boundary and then calling `restore()` leaves
`implIdx` at `7` and the boundary flag set — neither the implementation
selector state nor the floorplan annotation is reinstated by the
snapshot. -/
theorem c2_counterexample :
    Option.map CktGraph.implIdx c2mutated.restore = some 7 ∧
    Option.map (fun g => g.fpData.isBoundarySet) c2mutated.restore = some true :=
  ⟨rfl, rfl⟩

/-- C2 witness: the snapshot-scope theorem evaluated on the concrete mutated
graph, on which `restore()` completes. -/
theorem c2_snapshot_scope_witness :
    (∃ g', c2mutated.restore = some g') ∧
    (c2mutated.restore.getD c2mutated).implIdx = c2mutated.implIdx ∧
    (c2mutated.restore.getD c2mutated).fpData = c2mutated.fpData ∧
    (c2mutated.restore.getD c2mutated).netArray = c2mutated.backupSlot.netArray :=
  ⟨⟨c2mutated.restore.getD c2mutated, rfl⟩,
   (c2_snapshot_scope c2mutated (c2mutated.restore.getD c2mutated) rfl).2.2.2.2.2.2.2.2.2.2.2.1,
   (c2_snapshot_scope c2mutated (c2mutated.restore.getD c2mutated) rfl).2.2.2.2.2.2.2.2.2.1,
   (c2_snapshot_scope c2mutated (c2mutated.restore.getD c2mutated) rfl).2.2.1⟩

/-- C9: classifying a valid net index `i` with `addPsubIdx` appends `i` to
the psub classification list, and reading the resulting classification
position through `psub` yields exactly the net returned by `net i`;
`allocatePsub` returns an index that is simultaneously a valid net index of
the enlarged net collection and the last entry of the psub classification
list. -/
theorem c9_psub_classification (g : CktGraph) (i : IndexType) (h : i < g.numNets) :
    (g.addPsubIdx i).psubIdxArray = g.psubIdxArray ++ [i] ∧
    (g.addPsubIdx i).psub g.numPsubs = (g.addPsubIdx i).net i ∧
    (g.addPsubIdx i).net i = g.net i ∧
    ((g.addPsubIdx i).net i).isSome = true ∧
    g.allocatePsub.1 = g.numNets ∧
    g.allocatePsub.1 < g.allocatePsub.2.numNets ∧
    g.allocatePsub.2.psubIdxArray.getLast? = some g.allocatePsub.1 ∧
    (g.allocatePsub.2.net g.allocatePsub.1).isSome = true := by
  refine ⟨rfl, ?_, rfl, ?_, ?_, ?_, ?_, ?_⟩
  · unfold CktGraph.psub CktGraph.addPsubIdx CktGraph.numPsubs CktGraph.net
    rw [List.getElem?_concat_length]
    rfl
  · unfold CktGraph.net CktGraph.addPsubIdx
    have h' : i < g.netArray.length := h
    simp [List.getElem?_eq_getElem h']
  · simp [CktGraph.allocatePsub, CktGraph.allocateNet, CktGraph.numNets]
  · simp [CktGraph.allocatePsub, CktGraph.allocateNet, CktGraph.numNets]
  · simp [CktGraph.allocatePsub, CktGraph.allocateNet, List.getLast?_concat]
  · unfold CktGraph.allocatePsub CktGraph.allocateNet CktGraph.net
    simp [List.getElem?_concat_length]

/-- A concrete graph with a single net, used as the witness input for C9. -/
def c9oneNet : CktGraph := ((initCktGraph false false).allocateNet).2

/-- C9 witness: the classification theorem evaluated on a one-net graph at
net index zero. -/
theorem c9_psub_classification_witness :
    0 < c9oneNet.numNets ∧
    (c9oneNet.addPsubIdx 0).psubIdxArray = c9oneNet.psubIdxArray ++ [0] ∧
    (c9oneNet.addPsubIdx 0).psub c9oneNet.numPsubs = (c9oneNet.addPsubIdx 0).net 0 ∧
    c9oneNet.allocatePsub.2.psubIdxArray.getLast? = some c9oneNet.allocatePsub.1 :=
  ⟨by decide,
   (c9_psub_classification c9oneNet 0 (by decide)).1,
   (c9_psub_classification c9oneNet 0 (by decide)).2.1,
   (c9_psub_classification c9oneNet 0 (by decide)).2.2.2.2.2.2.1⟩

/-- The three allocator kinds of the entity store. -/
inductive AllocKind where
  | node : AllocKind
  | pin : AllocKind
  | net : AllocKind
  deriving DecidableEq

/-- Dispatch one allocator call of the given kind. -/
def allocStep : AllocKind → CktGraph → IndexType × CktGraph
  | AllocKind.node, g => g.allocateNode
  | AllocKind.pin, g => g.allocatePin
  | AllocKind.net, g => g.allocateNet

/-- Size of the collection an allocator kind appends to. -/
def collSize : AllocKind → CktGraph → IndexType
  | AllocKind.node, g => g.nodeArray.length
  | AllocKind.pin, g => g.pinArray.length
  | AllocKind.net, g => g.netArray.length

/-- Run a sequence of allocator calls, recording each returned index together
with its kind. -/
def runAllocs : List AllocKind → CktGraph → List (AllocKind × IndexType) × CktGraph
  | [], g => ([], g)
  | k :: ks, g =>
      let r := allocStep k g
      let rest := runAllocs ks r.2
      ((k, r.1) :: rest.1, rest.2)

/-- The indices returned for one allocator kind, in call order. -/
def kindIndices (k : AllocKind) : List (AllocKind × IndexType) → List IndexType
  | [] => []
  | p :: rest => if p.1 = k then p.2 :: kindIndices k rest else kindIndices k rest

/-- Number of calls of one allocator kind in a sequence. -/
def countKind (k : AllocKind) : List AllocKind → Nat
  | [] => 0
  | k' :: rest => (if k' = k then 1 else 0) + countKind k rest

/-- Each allocator call returns the size of its collection before the
call. -/
theorem allocStep_fst (k : AllocKind) (g : CktGraph) :
    (allocStep k g).1 = collSize k g := by
  cases k <;>
    simp [allocStep, collSize, CktGraph.allocateNode, CktGraph.allocatePin,
      CktGraph.allocateNet]

/-- An allocator call grows its own collection by one element and leaves the
sizes of the other two collections unchanged. -/
theorem collSize_allocStep (k k' : AllocKind) (g : CktGraph) :
    collSize k (allocStep k' g).2 =
      if k' = k then collSize k g + 1 else collSize k g := by
  cases k <;> cases k' <;>
    simp [allocStep, collSize, CktGraph.allocateNode, CktGraph.allocatePin,
      CktGraph.allocateNet]

/-- Over any sequence of allocator calls, the indices returned for one kind
are exactly the consecutive run starting at the pre-sequence size of that
collection. -/
theorem kindIndices_runAllocs (k : AllocKind) (ops : List AllocKind) (g : CktGraph) :
    kindIndices k (runAllocs ops g).1 =
      List.range' (collSize k g) (countKind k ops) := by
  induction ops generalizing g with
  | nil => rfl
  | cons k' ks ih =>
    show kindIndices k ((k', (allocStep k' g).1) :: (runAllocs ks (allocStep k' g).2).1)
        = List.range' (collSize k g) (countKind k (k' :: ks))
    by_cases hk : k' = k
    · subst hk
      rw [show countKind k' (k' :: ks) = countKind k' ks + 1 by
            simp [countKind, Nat.add_comm]]
      rw [List.range'_succ]
      simp only [kindIndices, if_pos rfl]
      rw [allocStep_fst, ih, collSize_allocStep]
      simp
    · rw [show countKind k (k' :: ks) = countKind k ks by simp [countKind, hk]]
      simp only [kindIndices, if_neg hk]
      rw [ih, collSize_allocStep, if_neg hk]

/-- C5: each of `allocateNode`, `allocatePin` and `allocateNet` appends one
default-constructed entity to its collection and returns the size of that
collection immediately before the call, so over any sequence of allocator
calls the indices returned per collection form the strictly increasing run
`size, size+1, size+2, ...` from the initial collection size. -/
theorem c5_allocator_indices (g : CktGraph) (ops : List AllocKind) (k : AllocKind) :
    g.allocateNode.1 = g.numNodes ∧
    g.allocateNode.2.nodeArray = g.nodeArray ++ [({} : CktNode)] ∧
    g.allocatePin.1 = g.numPins ∧
    g.allocatePin.2.pinArray = g.pinArray ++ [({} : Pin)] ∧
    g.allocateNet.1 = g.numNets ∧
    g.allocateNet.2.netArray = g.netArray ++ [({} : Net)] ∧
    kindIndices k (runAllocs ops g).1 =
      List.range' (collSize k g) (countKind k ops) :=
  ⟨allocStep_fst AllocKind.node g, rfl, allocStep_fst AllocKind.pin g, rfl,
   allocStep_fst AllocKind.net g, rfl, kindIndices_runAllocs k ops g⟩
